import Mathlib

/-!
Verification of the Driftwatch trust-establishment subsystem: a shallow
embedding of the server-side credential validator
(crates/driftwatch-api/src/auth.rs), the client-side browser-login
handshake (crates/driftwatch-cli/src/commands/auth.rs), the local client
configuration (crates/driftwatch-cli/src/api.rs and
crates/driftwatch-cli/src/commands/config.rs), and the batched entity
loader (crates/driftwatch-api/src/loaders.rs).

Rust `Result` is embedded as `Except`, `Option` as `Option`, machine
strings as Lean `String`.  The async store behind the validator
(`tsa::Auth`) and the gRPC identity check are out-of-scope collaborators
per the spec; they are embedded as function parameters (oracles), so the
theorems quantify over every possible behaviour of those stores.
-/

namespace Driftwatch

/-! ## Server-side credential validator (driftwatch-api/src/auth.rs) -/

/-- Embeds `tsa_core::User` (only the identity-carrying part matters here;
the remaining profile fields are irrelevant to all claims). -/
structure User where
  id : Nat
  deriving Repr, DecidableEq

/-- Embeds `tsa_core::Session`: an opaque session record. -/
structure Session where
  sid : Nat
  deriving Repr, DecidableEq

/-- Embeds `tsa_core::ApiKey`: an opaque API-key record. -/
structure ApiKey where
  kid : Nat
  deriving Repr, DecidableEq

/-- Embeds `AuthUser` from auth.rs: the authenticated identity, with the
optional session record and optional API-key record. -/
structure AuthUser where
  user : User
  session : Option Session
  api_key : Option ApiKey
  deriving Repr, DecidableEq

/-- Embeds `AuthError(pub String)` from auth.rs. -/
structure AuthError where
  msg : String
  deriving Repr, DecidableEq

/-- The behaviour of the out-of-scope credential store, consumed through
its two operations exactly as the spec scopes it: `validate_session` and
`validate_api_key`, each returning an identity or failing.  `none`
embeds any `Err` result of the async call. -/
structure CredStore where
  validate_session : String → Option (User × Session)
  validate_api_key : String → Option (ApiKey × User)

/-- Embeds `validate_token` from auth.rs lines 24-42: try the session
check first; on success return the user with the session attached and no
API key; otherwise try the API-key check; on success return the user
with the API key attached and no session; otherwise fail with the fixed
`Invalid token` error. -/
def validate_token (store : CredStore) (token : String) : Except AuthError AuthUser :=
  match store.validate_session token with
  | some (user, session) => Except.ok { user := user, session := some session, api_key := none }
  | none =>
    match store.validate_api_key token with
    | some (api_key, user) => Except.ok { user := user, session := none, api_key := some api_key }
    | none => Except.error { msg := "Invalid token" }

end Driftwatch

namespace Driftwatch

section ValidateTokenChecks

def demoStore : CredStore where
  validate_session := fun t => if t = "sess-1" then some (⟨7⟩, ⟨1⟩) else none
  validate_api_key := fun t => if t = "ak_123" ∨ t = "sess-1" then some (⟨9⟩, ⟨8⟩) else none

example : validate_token demoStore "sess-1" =
    Except.ok { user := ⟨7⟩, session := some ⟨1⟩, api_key := none } := rfl

example : validate_token demoStore "ak_123" =
    Except.ok { user := ⟨8⟩, session := none, api_key := some ⟨9⟩ } := rfl

example : validate_token demoStore "junk" = Except.error { msg := "Invalid token" } := rfl

end ValidateTokenChecks

/-- C1: for every bearer string and every store behaviour, `validate_token`
first attempts session validation and on success returns the identity with
the session record populated and no API-key record; only if that fails does
it attempt API-key validation, returning the identity with the API-key
record populated and no session record; if both fail it fails with the
authentication error.  Every successful result has precisely one of
session / api-key populated — never both, never neither. -/
theorem validate_token_spec (store : CredStore) (token : String) :
    (∀ u s, store.validate_session token = some (u, s) →
      validate_token store token =
        Except.ok { user := u, session := some s, api_key := none })
    ∧ (store.validate_session token = none →
        ∀ k u, store.validate_api_key token = some (k, u) →
          validate_token store token =
            Except.ok { user := u, session := none, api_key := some k })
    ∧ (store.validate_session token = none →
        store.validate_api_key token = none →
          validate_token store token = Except.error { msg := "Invalid token" })
    ∧ (∀ au, validate_token store token = Except.ok au →
        (au.session.isSome ∧ au.api_key = none) ∨
        (au.session = none ∧ au.api_key.isSome)) := by
  unfold validate_token
  refine ⟨?_, ?_, ?_, ?_⟩
  · intro u s hs
    simp [hs]
  · intro hs k u hk
    simp [hs, hk]
  · intro hs hk
    simp [hs, hk]
  · intro au h
    cases hs : store.validate_session token with
    | some p =>
      obtain ⟨u, s⟩ := p
      simp [hs] at h
      simp [← h]
    | none =>
      cases hk : store.validate_api_key token with
      | some p =>
        obtain ⟨k, u⟩ := p
        simp [hs, hk] at h
        simp [← h]
      | none =>
        simp [hs, hk] at h

/-- Witness for C1: the spec theorem instantiated at a concrete store and
concrete tokens, discharging each hypothesis by evaluation. -/
theorem validate_token_spec_witness :
    validate_token demoStore "sess-1" =
      Except.ok { user := ⟨7⟩, session := some ⟨1⟩, api_key := none } ∧
    validate_token demoStore "ak_123" =
      Except.ok { user := ⟨8⟩, session := none, api_key := some ⟨9⟩ } ∧
    validate_token demoStore "junk" = Except.error { msg := "Invalid token" } := by
  refine ⟨?_, ?_, ?_⟩
  · exact (validate_token_spec demoStore "sess-1").1 ⟨7⟩ ⟨1⟩ (by decide)
  · exact (validate_token_spec demoStore "ak_123").2.1 (by decide) ⟨9⟩ ⟨8⟩ (by decide)
  · exact (validate_token_spec demoStore "junk").2.2.1 (by decide) (by decide)

/-- C6: when both credential checks fail, the error is the same fixed
`Invalid token` value for every rejected bearer string, so a caller cannot
tell an expired session apart from a non-key: any two rejected tokens
produce identical error values. -/
theorem validate_token_uniform_failure (store : CredStore) (t1 t2 : String)
    (h1s : store.validate_session t1 = none) (h1k : store.validate_api_key t1 = none)
    (h2s : store.validate_session t2 = none) (h2k : store.validate_api_key t2 = none) :
    validate_token store t1 = validate_token store t2 ∧
    validate_token store t1 = Except.error { msg := "Invalid token" } := by
  unfold validate_token
  simp [h1s, h1k, h2s, h2k]

/-- Witness for C6: two concretely rejected tokens get identical errors. -/
theorem validate_token_uniform_failure_witness :
    validate_token demoStore "expired-session" = validate_token demoStore "junk" ∧
    validate_token demoStore "expired-session" = Except.error { msg := "Invalid token" } :=
  validate_token_uniform_failure demoStore "expired-session" "junk"
    (by decide) (by decide) (by decide) (by decide)

end Driftwatch

namespace Driftwatch

/-! ## Client-side callback listener (driftwatch-cli/src/commands/auth.rs) -/

/-- Value of one hexadecimal digit, as accepted by the percent-decoder of
the urlencoding crate (digits, lower-case and upper-case letters). -/
def hexDigit (c : Char) : Option Nat :=
  if '0' ≤ c ∧ c ≤ '9' then some (c.toNat - '0'.toNat)
  else if 'a' ≤ c ∧ c ≤ 'f' then some (c.toNat - 'a'.toNat + 10)
  else if 'A' ≤ c ∧ c ≤ 'F' then some (c.toNat - 'A'.toNat + 10)
  else none

/-- Embeds `urlencoding::decode`: a percent-escape of two hex digits is
replaced by the escaped code point, an invalid escape is kept literally,
and every other character passes through; byte-level UTF-8 reassembly is
elided (code points stand for bytes). -/
def urldecodeChars : List Char → List Char
  | [] => []
  | '%' :: a :: b :: rest =>
    match hexDigit a, hexDigit b with
    | some hi, some lo => Char.ofNat (16 * hi + lo) :: urldecodeChars rest
    | _, _ => '%' :: urldecodeChars (a :: b :: rest)
  | c :: rest => c :: urldecodeChars rest

def urldecode (s : String) : String := String.mk (urldecodeChars s.data)

/-- Embeds Rust str::split with a character separator: the empty input
gives one empty piece and adjacent separators give empty pieces, exactly
as the split of the query string does. -/
def splitOnChar (sep : Char) : List Char → List (List Char)
  | [] => [[]]
  | c :: rest =>
    if c = sep then [] :: splitOnChar sep rest
    else
      match splitOnChar sep rest with
      | [] => [[c]]
      | piece :: pieces => (c :: piece) :: pieces

/-- Splits at the first occurrence of the separator; `none` when the
separator never occurs. -/
def splitn2Chars (sep : Char) : List Char → Option (List Char × List Char)
  | [] => none
  | c :: rest =>
    if c = sep then some ([], rest)
    else
      match splitn2Chars sep rest with
      | some kv => some (c :: kv.1, kv.2)
      | none => none

/-- Embeds the pair split of handle_callback, Rust splitn of a pair at
the first equals sign: `none` when the pair holds no equals sign (so the
second part of the iterator is absent and the pair is skipped),
otherwise the key and the remainder of the pair. -/
def splitn2_eq (s : String) : Option (String × String) :=
  (splitn2Chars '=' s.data).map fun kv => (String.mk kv.1, String.mk kv.2)

/-- Embeds the query-scanning loop of handle_callback (auth.rs lines
175-227): the first key-value pair of the ampersand-split query whose key
is `token` yields the percent-decoded value. -/
def extract_token (query : String) : Option String :=
  ((splitOnChar '&' query.data).map fun piece => String.mk piece).findSome? fun pair =>
    match splitn2_eq pair with
    | some (key, value) => if key = "token" then some (urldecode value) else none
    | none => none

/-- An incoming HTTP request, reduced to the parts handle_callback reads:
`uri.path()` and `uri.query()`. -/
structure HttpReq where
  path : String
  query : Option String
  deriving Repr, DecidableEq

/-- An outgoing HTTP response, reduced to the parts the handler sets:
status code, optional Content-Type header, body. -/
structure HttpResp where
  status : Nat
  content_type : Option String
  body : String
  deriving Repr, DecidableEq

/-- Stands for the static HTML success page literal of handle_callback
(auth.rs lines 185-219); the claims constrain only the status code and
the content type, so the markup is abbreviated. -/
def success_html : String := "<html>Authentication Successful</html>"

def ok_response : HttpResp :=
  { status := 200, content_type := some "text/html", body := success_html }

def bad_request_response : HttpResp :=
  { status := 400, content_type := none, body := "Invalid request" }

/-- Embeds `handle_callback` (auth.rs lines 167-235).  The delivery slot
`tx : Arc<Mutex<Option<oneshot::Sender<String>>>>` is embedded as a Bool
that is true while the one-shot sender is still in the slot; the third
component of the result is the value sent through the one-shot channel by
this request, if any (`tx.lock().await.take()` empties the slot, and the
send happens only when the sender was still present). -/
def handle_callback (req : HttpReq) (slot : Bool) : HttpResp × Bool × Option String :=
  if req.path = "/callback" then
    match req.query.bind extract_token with
    | some token => (ok_response, false, if slot then some token else none)
    | none => (bad_request_response, slot, none)
  else
    (bad_request_response, slot, none)

/-- Runs handle_callback over a sequence of requests against the shared
slot, as browser_login's accept loop does; the Mutex serialises all slot
accesses, so the concurrent connection handlers are embedded in their
arrival order at the lock.  Returns the responses, the final slot state,
and the values delivered through the one-shot channel in order. -/
def run_requests (reqs : List HttpReq) (slot : Bool) : List HttpResp × Bool × List String :=
  match reqs with
  | [] => ([], slot, [])
  | r :: rs =>
    let step := handle_callback r slot
    let rest := run_requests rs step.2.1
    (step.1 :: rest.1, rest.2.1, step.2.2.toList ++ rest.2.2)

/-- Requests that reach the token-sending branch of handle_callback. -/
def valid_callback (r : HttpReq) : Bool :=
  r.path = "/callback" && (r.query.bind extract_token).isSome

end Driftwatch

namespace Driftwatch

/-- Helper: a successful findSome? comes from some element of the list. -/
theorem findSome?_some_mem {α β : Type} (f : α → Option β) :
    ∀ (l : List α) (b : β), l.findSome? f = some b → ∃ a, a ∈ l ∧ f a = some b := by
  intro l
  induction l with
  | nil =>
    intro b h
    simp [List.findSome?] at h
  | cons x xs ih =>
    intro b h
    rw [List.findSome?_cons] at h
    cases hfx : f x with
    | some v =>
      rw [hfx] at h
      simp at h
      refine ⟨x, List.mem_cons_self x xs, ?_⟩
      rw [hfx, h]
    | none =>
      rw [hfx] at h
      simp at h
      obtain ⟨a, ha, hfa⟩ := ih b h
      exact ⟨a, List.mem_cons_of_mem x ha, hfa⟩

section CallbackChecks

example : extract_token "token=abc%20def" = some "abc def" := by decide

example : extract_token "state=x&token=t1&token=t2" = some "t1" := by decide

example : extract_token "state=x" = none := by decide

example : handle_callback ⟨"/callback", some "token=tok1"⟩ true =
    (ok_response, false, some "tok1") := by decide

example : handle_callback ⟨"/callback", some "token=tok1"⟩ false =
    (ok_response, false, none) := by decide

example : handle_callback ⟨"/other", some "token=tok1"⟩ true =
    (bad_request_response, true, none) := by decide

example : handle_callback ⟨"/callback", none⟩ true =
    (bad_request_response, true, none) := by decide

end CallbackChecks

/-- C3: a request to the callback path whose query carries a token
parameter is answered 200 with the text/html success page, and the
percent-decoded raw value of the first token pair is handed to the
delivery slot (the slot receives it exactly when the sender is still
present); a request to any other path, or a callback request with no
token parameter, is answered 400 and leaves the slot untouched. -/
theorem handle_callback_spec (req : HttpReq) (slot : Bool) :
    (∀ q token, req.path = "/callback" → req.query = some q → extract_token q = some token →
      handle_callback req slot = (ok_response, false, if slot then some token else none) ∧
      ∃ pair key value,
        pair ∈ (splitOnChar '&' q.data).map (fun piece => String.mk piece) ∧
        splitn2_eq pair = some (key, value) ∧
        key = "token" ∧ token = urldecode value)
    ∧ (req.path ≠ "/callback" → handle_callback req slot = (bad_request_response, slot, none))
    ∧ (req.query.bind extract_token = none →
        handle_callback req slot = (bad_request_response, slot, none))
    ∧ ok_response.status = 200 ∧ ok_response.content_type = some "text/html"
    ∧ bad_request_response.status = 400 := by
  refine ⟨?_, ?_, ?_, rfl, rfl, rfl⟩
  · intro q token hpath hq hex
    constructor
    · unfold handle_callback
      simp [hpath, hq, hex]
    · obtain ⟨pair, hmem, hpair⟩ := findSome?_some_mem _ _ _ hex
      cases hsplit : splitn2_eq pair with
      | none =>
        rw [hsplit] at hpair
        simp at hpair
      | some kv =>
        obtain ⟨key, value⟩ := kv
        rw [hsplit] at hpair
        by_cases hkey : key = "token"
        · refine ⟨pair, key, value, hmem, hsplit, hkey, ?_⟩
          simp [hkey] at hpair
          exact hpair.symm
        · simp [hkey] at hpair
  · intro hpath
    unfold handle_callback
    simp [hpath]
  · intro hnone
    unfold handle_callback
    by_cases hpath : req.path = "/callback"
    · simp [hpath, hnone]
    · simp [hpath]

/-- Witness for C3: a concrete token-carrying callback request delivers
the percent-decoded credential with a 200 text/html response, while a
wrong path and a parameterless callback each get 400 and leave a free
slot free. -/
theorem handle_callback_spec_witness :
    handle_callback ⟨"/callback", some "token=abc%20def"⟩ true =
      (ok_response, false, some "abc def") ∧
    handle_callback ⟨"/other", some "token=abc"⟩ true = (bad_request_response, true, none) ∧
    handle_callback ⟨"/callback", some "state=x"⟩ true =
      (bad_request_response, true, none) := by
  refine ⟨?_, ?_, ?_⟩
  · exact ((handle_callback_spec ⟨"/callback", some "token=abc%20def"⟩ true).1
      "token=abc%20def" "abc def" rfl rfl (by decide)).1
  · exact (handle_callback_spec ⟨"/other", some "token=abc"⟩ true).2.1 (by decide)
  · exact (handle_callback_spec ⟨"/callback", some "state=x"⟩ true).2.2.1 (by decide)

/-- Helper for C2: once the one-shot sender is gone from the slot, any
further sequence of valid callback requests is still all answered with
the 200 success page but delivers nothing. -/
theorem run_requests_consumed (rs : List HttpReq)
    (hv : ∀ r ∈ rs, valid_callback r = true) :
    run_requests rs false = (rs.map fun _ => ok_response, false, []) := by
  induction rs with
  | nil => simp [run_requests]
  | cons r rest ih =>
    have hr := hv r (List.mem_cons_self r rest)
    unfold valid_callback at hr
    simp only [Bool.and_eq_true, decide_eq_true_eq, Option.isSome_iff_exists] at hr
    obtain ⟨hpath, t, ht⟩ := hr
    have hstep : handle_callback r false = (ok_response, false, none) := by
      unfold handle_callback
      simp [hpath, ht]
    have hrest := ih fun x hx => hv x (List.mem_cons_of_mem r hx)
    simp [run_requests, hstep, hrest]

/-- C2: starting from a free slot, a nonempty sequence of callback
requests each carrying a valid credential delivers exactly one credential
— that of the first request — while every request, the later ones
included, is answered with the 200 success page; the slot ends consumed. -/
theorem delivery_slot_exactly_once (r0 : HttpReq) (rs : List HttpReq)
    (hv : ∀ r ∈ r0 :: rs, valid_callback r = true) :
    ∃ t, r0.query.bind extract_token = some t ∧
      run_requests (r0 :: rs) true = ((r0 :: rs).map fun _ => ok_response, false, [t]) ∧
      ok_response.status = 200 := by
  have hr := hv r0 (List.mem_cons_self r0 rs)
  unfold valid_callback at hr
  simp only [Bool.and_eq_true, decide_eq_true_eq, Option.isSome_iff_exists] at hr
  obtain ⟨hpath, t, ht⟩ := hr
  refine ⟨t, ht, ?_, rfl⟩
  have hstep : handle_callback r0 true = (ok_response, false, some t) := by
    unfold handle_callback
    simp [hpath, ht]
  have hrest := run_requests_consumed rs fun x hx => hv x (List.mem_cons_of_mem r0 hx)
  simp [run_requests, hstep, hrest]

/-- Witness for C2: two concrete valid callback requests with different
credentials; only the first credential is delivered and both requests are
answered 200. -/
theorem delivery_slot_exactly_once_witness :
    run_requests
        [⟨"/callback", some "token=first"⟩, ⟨"/callback", some "token=second"⟩] true =
      ([ok_response, ok_response], false, ["first"]) := by
  obtain ⟨t, ht, hrun, _⟩ := delivery_slot_exactly_once ⟨"/callback", some "token=first"⟩
    [⟨"/callback", some "token=second"⟩] (by decide)
  have hb : (HttpReq.mk "/callback" (some "token=first")).query.bind extract_token =
      some "first" := by decide
  rw [hb] at ht
  injection ht with h
  subst h
  simpa using hrun

end Driftwatch

namespace Driftwatch

/-! ## Login handshake wait and persistence (driftwatch-cli/src/commands/auth.rs) -/

/-- Terminal outcome of the wait in browser_login. -/
inductive HandshakeOutcome
  | Delivered (token : String)
  | TimedOut
  deriving Repr, DecidableEq

/-- Embeds the race of browser_login line 157,
`tokio::time::timeout(Duration::from_secs(300), rx)`: time in whole
seconds, `delivery` the arrival instant and value of the single value
ever sent through the one-shot channel (at most one exists, per
`delivery_slot_exactly_once`), `none` when nothing is delivered.  The
timer fires once `deadline` seconds elapse; whichever event is earlier
decides the outcome and the later event is discarded. -/
def race_with_deadline (deadline : Nat) (delivery : Option (Nat × String)) :
    HandshakeOutcome :=
  match delivery with
  | some (t, token) => if t < deadline then .Delivered token else .TimedOut
  | none => .TimedOut

/-- The deadline constant of browser_login: `Duration::from_secs(300)`. -/
def browser_login_deadline : Nat := 300

def browser_login_wait (delivery : Option (Nat × String)) : HandshakeOutcome :=
  race_with_deadline browser_login_deadline delivery

/-- C4: the handshake wait races the delivery slot against a fixed
5-minute (300-second) deadline: a credential delivered strictly before
the deadline yields Delivered with exactly that credential; once the
deadline elapses with no delivery the outcome is TimedOut, regardless of
any delivery at or after the deadline. -/
theorem browser_login_wait_spec :
    browser_login_deadline = 5 * 60
    ∧ (∀ t token, t < browser_login_deadline →
        browser_login_wait (some (t, token)) = HandshakeOutcome.Delivered token)
    ∧ (∀ t token, browser_login_deadline ≤ t →
        browser_login_wait (some (t, token)) = HandshakeOutcome.TimedOut)
    ∧ browser_login_wait none = HandshakeOutcome.TimedOut := by
  refine ⟨rfl, ?_, ?_, rfl⟩
  · intro t token ht
    unfold browser_login_wait race_with_deadline
    simp [ht]
  · intro t token ht
    unfold browser_login_wait race_with_deadline
    simp [Nat.not_lt.mpr ht]

/-- Witness for C4: a delivery at second 10 completes in Delivered with
that credential; a delivery at second 300 (and none at all) completes in
TimedOut. -/
theorem browser_login_wait_spec_witness :
    browser_login_wait (some (10, "tok")) = HandshakeOutcome.Delivered "tok" ∧
    browser_login_wait (some (300, "late")) = HandshakeOutcome.TimedOut ∧
    browser_login_wait none = HandshakeOutcome.TimedOut :=
  ⟨browser_login_wait_spec.2.1 10 "tok" (by decide),
   browser_login_wait_spec.2.2.1 300 "late" (by decide),
   browser_login_wait_spec.2.2.2⟩

/-- The three-field client configuration written by login (auth.rs lines
87-91) and by config set (config.rs lines 44-48). -/
structure CliConfig where
  token : String
  api_url : String
  grpc_url : String
  deriving Repr, DecidableEq

/-- The user profile returned by the gRPC identity check; only its
presence matters to the login flow. -/
structure UserProfile where
  email : String
  deriving Repr, DecidableEq

/-- Embeds the token selection at the top of login (auth.rs lines 55-64):
an explicit `--token` argument is used as-is and the browser handshake is
never consulted; otherwise the handshake result (possibly a failure) is
used. -/
def chosen_token (explicit : Option String) (browser : Except String String) :
    Except String String :=
  match explicit with
  | some t => Except.ok t
  | none => browser

/-- Embeds login (auth.rs lines 54-106) as a transition on the config
file.  `verify` collapses the gRPC channel construction, the connect, the
get_me call and the `user.ok_or(..)` extraction into one oracle: any of
those failing is an `Except.error`.  The result pairs the config file
after the command with the command outcome; `fs.write` of the serialized
config happens only on the success path, after verification. -/
def login (explicit : Option String) (browser : Except String String)
    (verify : String → Except String UserProfile) (api_url grpc_url : String)
    (file : Option CliConfig) : Option CliConfig × Except String UserProfile :=
  match chosen_token explicit browser with
  | Except.error e => (file, Except.error e)
  | Except.ok token =>
    match verify token with
    | Except.error e => (file, Except.error e)
    | Except.ok user =>
      (some { token := token, api_url := api_url, grpc_url := grpc_url }, Except.ok user)

/-- C5: login verifies the candidate credential before persisting it.  On
any failing path the command fails and the pre-existing config file is
bit-for-bit untouched (in particular the failed credential is never
written); the config file is (over)written exactly when verification of
the chosen credential succeeds, and then it holds that credential.  An
explicit token bypasses the browser handshake entirely. -/
theorem login_persists_only_verified (explicit : Option String)
    (browser : Except String String) (verify : String → Except String UserProfile)
    (api_url grpc_url : String) (file : Option CliConfig) :
    (∀ e, (login explicit browser verify api_url grpc_url file).2 = Except.error e →
      (login explicit browser verify api_url grpc_url file).1 = file)
    ∧ (∀ token user, chosen_token explicit browser = Except.ok token →
        verify token = Except.ok user →
          login explicit browser verify api_url grpc_url file =
            (some { token := token, api_url := api_url, grpc_url := grpc_url },
              Except.ok user))
    ∧ (∀ token e, chosen_token explicit browser = Except.ok token →
        verify token = Except.error e →
          login explicit browser verify api_url grpc_url file = (file, Except.error e))
    ∧ (∀ t, chosen_token (some t) browser = Except.ok t) := by
  refine ⟨?_, ?_, ?_, fun t => rfl⟩
  · intro e herr
    unfold login at herr ⊢
    cases hc : chosen_token explicit browser with
    | error e0 => simp [hc]
    | ok token =>
      cases hv : verify token with
      | error e0 => simp [hc, hv]
      | ok user =>
        rw [hc] at herr
        simp only [hv] at herr
        simp at herr
  · intro token user hc hv
    unfold login
    rw [hc]
    simp only [hv]
  · intro token e hc hv
    unfold login
    rw [hc]
    simp only [hv]

/-- Witness for C5: with a concrete verifier that rejects `bad` and
accepts `good`, login with the rejected token leaves a pre-existing
config file unchanged and fails, and login with the accepted token
overwrites it. -/
theorem login_persists_only_verified_witness :
    login (some "bad") (Except.error "unused")
        (fun t => if t = "good" then Except.ok ⟨"u@example.com"⟩ else Except.error "Token validation failed")
        "https://api" "https://grpc" (some ⟨"old", "a", "g"⟩) =
      (some ⟨"old", "a", "g"⟩, Except.error "Token validation failed") ∧
    login (some "good") (Except.error "unused")
        (fun t => if t = "good" then Except.ok ⟨"u@example.com"⟩ else Except.error "Token validation failed")
        "https://api" "https://grpc" (some ⟨"old", "a", "g"⟩) =
      (some ⟨"good", "https://api", "https://grpc"⟩, Except.ok ⟨"u@example.com"⟩) := by
  constructor
  · exact (login_persists_only_verified (some "bad") (Except.error "unused") _
      "https://api" "https://grpc" (some ⟨"old", "a", "g"⟩)).2.2.1 "bad"
      "Token validation failed" rfl rfl
  · exact (login_persists_only_verified (some "good") (Except.error "unused") _
      "https://api" "https://grpc" (some ⟨"old", "a", "g"⟩)).2.1 "good"
      ⟨"u@example.com"⟩ rfl rfl

end Driftwatch

namespace Driftwatch

/-! ## Local client configuration read path (driftwatch-cli/src/api.rs) -/

def DEFAULT_API_URL : String := "https://driftwatch.dev"

/-- The two-field Config of api.rs lines 8-13 (token and api_url, the
latter serde-defaulted). -/
structure Config where
  token : String
  api_url : String
  deriving Repr, DecidableEq

/-- Process environment as read through std::env::var. -/
def Env : Type := String → Option String

/-- Embeds Config::load (api.rs lines 20-39).  The config file is given
in parsed form; `none` collapses both a missing file and an unparseable
one into the error branch.  A set DRIFTWATCH_TOKEN short-circuits before
any file access; otherwise the file is read and, when DRIFTWATCH_API_URL
is set, its value replaces the file api_url in the returned in-memory
config.  The second component is the config file after the call: load
only reads it. -/
def Config.load (env : Env) (file : Option Config) :
    Except String Config × Option Config :=
  let api_url := (env "DRIFTWATCH_API_URL").getD DEFAULT_API_URL
  match env "DRIFTWATCH_TOKEN" with
  | some token => (Except.ok { token := token, api_url := api_url }, file)
  | none =>
    match file with
    | none => (Except.error "Not authenticated. Run driftwatch auth login first.", file)
    | some cfg =>
      (Except.ok
        (if (env "DRIFTWATCH_API_URL").isSome then { cfg with api_url := api_url } else cfg),
        file)

/-- C9: with DRIFTWATCH_TOKEN set, Config::load never consults the
configuration file: it succeeds with the environment token, the API base
URL comes from DRIFTWATCH_API_URL when set and the built-in default
otherwise, and the result is the same whatever the file holds — any API
base URL stored in the file is ignored. -/
theorem config_load_env_token (env : Env) (tok : String)
    (h : env "DRIFTWATCH_TOKEN" = some tok) :
    (∀ file, Config.load env file =
      (Except.ok (Config.mk tok ((env "DRIFTWATCH_API_URL").getD DEFAULT_API_URL)), file))
    ∧ (∀ file1 file2, (Config.load env file1).1 = (Config.load env file2).1)
    ∧ (env "DRIFTWATCH_API_URL" = none →
        ∀ file, (Config.load env file).1 =
          Except.ok { token := tok, api_url := DEFAULT_API_URL }) := by
  refine ⟨?_, ?_, ?_⟩
  · intro file
    unfold Config.load
    rw [h]
  · intro file1 file2
    unfold Config.load
    rw [h]
  · intro hapi file
    unfold Config.load
    rw [h, hapi]
    rfl

/-- Witness for C9: a concrete environment with a token but no API URL
override makes load ignore a file holding a different token and api_url. -/
theorem config_load_env_token_witness :
    Config.load (fun k => if k = "DRIFTWATCH_TOKEN" then some "envtok" else none)
        (some { token := "filetok", api_url := "https://file.example" }) =
      (Except.ok { token := "envtok", api_url := DEFAULT_API_URL },
        some { token := "filetok", api_url := "https://file.example" }) :=
  (config_load_env_token (fun k => if k = "DRIFTWATCH_TOKEN" then some "envtok" else none)
    "envtok" rfl).1 (some { token := "filetok", api_url := "https://file.example" })

/-- Embeds toml::to_string_pretty of the three-field config written by
login, as the key-value pairs the persisted document holds (the toml
quoting of each scalar string is elided). -/
def CliConfig.to_kv (c : CliConfig) : List (String × String) :=
  [("token", c.token), ("api_url", c.api_url), ("grpc_url", c.grpc_url)]

/-- Modelled from the spec: the loader of the three-field client
configuration is not under src/ — src/crates/driftwatch-cli/src/api.rs
holds an earlier two-field Config while its callers in commands/auth.rs
and commands/config.rs construct the three-field one — so the read path
follows the spec words: environment variables may override the API / RPC
base URL at read time, merged into the in-memory config object, without
being written back.  The second component is the config file after the
call. -/
def CliConfig.load_full (env : Env) (file : Option CliConfig) :
    Except String CliConfig × Option CliConfig :=
  match file with
  | none => (Except.error "Not authenticated. Run driftwatch auth login first.", file)
  | some cfg =>
    (Except.ok
      (CliConfig.mk cfg.token ((env "DRIFTWATCH_API_URL").getD cfg.api_url)
        ((env "DRIFTWATCH_GRPC_URL").getD cfg.grpc_url)),
      file)

/-- C7: the persisted client configuration is a key-value document with
exactly the fields token (the credential string), api_url and grpc_url,
in that order, holding the respective config values; at read time the
environment overrides of the two base URLs are merged into the in-memory
config object, while the file itself is never written back by a load. -/
theorem cli_config_kv_and_read_merge (env : Env) (c : CliConfig) :
    (CliConfig.to_kv c).map Prod.fst = ["token", "api_url", "grpc_url"]
    ∧ (CliConfig.to_kv c).map Prod.snd = [c.token, c.api_url, c.grpc_url]
    ∧ (CliConfig.load_full env (some c)).1 =
        Except.ok (CliConfig.mk c.token ((env "DRIFTWATCH_API_URL").getD c.api_url)
          ((env "DRIFTWATCH_GRPC_URL").getD c.grpc_url))
    ∧ (∀ file, (CliConfig.load_full env file).2 = file) := by
  refine ⟨rfl, rfl, rfl, ?_⟩
  intro file
  cases file with
  | none => rfl
  | some cfg => rfl

/-! ## Batched entity loader (driftwatch-api/src/loaders.rs) -/

/-- A row of one entity table: its primary key (uuids are embedded as
naturals) and the GraphQL value the Into conversion of the define_loader
macro produces for it. -/
structure Row (V : Type) where
  id : Nat
  val : V

/-- The underlying bulk read of Loader::load,
`Entity::find().filter(Id.is_in(keys)).all(db)`: `db` is the table
contents behind a transport layer whose error embeds a failed await. -/
def bulk_fetch {V : Type} (db : Except String (List (Row V))) (keys : List Nat) :
    Except String (List (Row V)) :=
  match db with
  | Except.error e => Except.error e
  | Except.ok rows => Except.ok (rows.filter fun r => keys.contains r.id)

/-- Embeds Loader::load of the define_loader macro (loaders.rs lines
19-29): bulk-fetch the rows whose id is among the keys, then collect
them into a map keyed by row id (embedded as an association list); a
transport error propagates through the question-mark operator. -/
def loader_load {V : Type} (db : Except String (List (Row V))) (keys : List Nat) :
    Except String (List (Nat × V)) :=
  match bulk_fetch db keys with
  | Except.error e => Except.error e
  | Except.ok items => Except.ok (items.map fun item => (item.id, item.val))

/-- Helper: an association list none of whose keys is k has no entry at k. -/
theorem lookup_eq_none_of_all_ne {V : Type} (k : Nat) :
    ∀ (l : List (Nat × V)), (∀ p ∈ l, p.1 ≠ k) → l.lookup k = none := by
  intro l
  induction l with
  | nil => intro _; rfl
  | cons p rest ih =>
    intro hall
    obtain ⟨k1, v1⟩ := p
    have hp := hall (k1, v1) (List.mem_cons_self _ rest)
    have hbeq : (k == k1) = false := by
      cases hkb : (k == k1) with
      | false => rfl
      | true => exact absurd (eq_of_beq hkb).symm hp
    simp only [List.lookup, hbeq]
    exact ih fun q hq => hall q (List.mem_cons_of_mem _ hq)

/-- C8: a requested key with no matching row is simply absent from the
mapping Loader::load returns — the call still succeeds and the lookup of
that key yields nothing, neither an error nor a null marker — whereas a
failure of the underlying bulk fetch aborts the whole batch with an
error for that entity kind instead of being reported as all keys absent. -/
theorem loader_load_missing_vs_failure {V : Type} (rows : List (Row V))
    (keys : List Nat) (e : String) :
    (∀ k, k ∈ keys → (∀ r ∈ rows, r.id ≠ k) →
      ∃ m, loader_load (Except.ok rows) keys = Except.ok m ∧ m.lookup k = none)
    ∧ loader_load (Except.error e : Except String (List (Row V))) keys =
        Except.error e := by
  constructor
  · intro k _ hnone
    refine ⟨_, rfl, ?_⟩
    apply lookup_eq_none_of_all_ne
    intro p hp
    obtain ⟨r, hr, hpr⟩ := List.mem_map.mp hp
    have hrr : r ∈ rows := List.mem_of_mem_filter hr
    rw [← hpr]
    exact hnone r hrr
  · rfl

/-- Witness for C8: with a concrete two-row table, a batch asking for an
existing key and a missing key succeeds with the missing key absent from
the map, while a failed transport aborts the same batch with its error. -/
theorem loader_load_missing_vs_failure_witness :
    (∃ m, loader_load (Except.ok [Row.mk 1 "a", Row.mk 2 "b"]) [1, 3] = Except.ok m ∧
      m.lookup 3 = none) ∧
    loader_load (Except.error "db down" : Except String (List (Row String))) [1, 3] =
      Except.error "db down" :=
  ⟨(loader_load_missing_vs_failure [Row.mk 1 "a", Row.mk 2 "b"] [1, 3] "db down").1 3
      (by decide) (by
        intro r hr
        simp only [List.mem_cons, List.not_mem_nil, or_false] at hr
        rcases hr with h | h
        · rw [h]; decide
        · rw [h]; decide),
   (@loader_load_missing_vs_failure String [] [1, 3] "db down").2⟩

/-! ## Logout (driftwatch-cli/src/commands/auth.rs lines 255-266) -/

/-- Embeds logout as a transition on the config file: delete the file
when it exists, report not-logged-in when it does not; the command
succeeds either way.  The string is the message printed. -/
def logout (file : Option CliConfig) : Except String (Option CliConfig × String) :=
  match file with
  | some _ => Except.ok (none, "Logged out successfully")
  | none => Except.ok (none, "Not logged in")

/-- C10: logout is total and idempotent: it succeeds from every file
state and leaves no config file behind; with no config file present it
succeeds while leaving the filesystem unchanged; and a second logout run
right after any first one also succeeds. -/
theorem logout_idempotent_total (file : Option CliConfig) :
    (∃ r, logout file = Except.ok r ∧ r.1 = none)
    ∧ (file = none → logout file = Except.ok (file, "Not logged in"))
    ∧ (∀ f1 m1, logout file = Except.ok (f1, m1) →
        logout f1 = Except.ok (none, "Not logged in")) := by
  refine ⟨?_, ?_, ?_⟩
  · cases file with
    | some c => exact ⟨(none, "Logged out successfully"), rfl, rfl⟩
    | none => exact ⟨(none, "Not logged in"), rfl, rfl⟩
  · intro h
    rw [h]
    rfl
  · intro f1 m1 h
    cases file with
    | some c =>
      injection h with h2
      injection h2 with h3 h4
      rw [← h3]
      rfl
    | none =>
      injection h with h2
      injection h2 with h3 h4
      rw [← h3]
      rfl

/-- Witness for C10: logout from a present config file deletes it and
succeeds, and a second logout right after still succeeds; logout from an
absent file succeeds unchanged. -/
theorem logout_idempotent_total_witness :
    logout none = Except.ok (none, "Not logged in") ∧
    logout none = Except.ok (none, "Not logged in") :=
  ⟨(logout_idempotent_total none).2.1 rfl,
   (logout_idempotent_total (some ⟨"t", "a", "g"⟩)).2.2 none "Logged out successfully" rfl⟩

end Driftwatch
